import Mathlib

/-!
Shallow embedding of the shuttle gateway core (gateway/src/main.rs):
the error taxonomy and its HTTP mapping, the validated identifier
newtypes, and the generic EndState reconciliation stream driver.
Theorems below settle the specification claims against this embedding.
-/

set_option maxRecDepth 4096

/-- The closed error taxonomy of the gateway (enum ErrorKind, 15 variants). -/
inductive ErrorKind where
  | KeyMissing
  | BadHost
  | KeyMalformed
  | Unauthorized
  | Forbidden
  | UserNotFound
  | UserAlreadyExists
  | ProjectNotFound
  | InvalidProjectName
  | ProjectAlreadyExists
  | ProjectNotReady
  | ProjectUnavailable
  | InvalidOperation
  | Internal
  | NotReady
deriving DecidableEq, Repr

/-- An Error pairs an ErrorKind with an optional opaque cause
(the boxed std error of the source is modelled by its display string). -/
structure Error where
  kind : ErrorKind
  source : Option String
deriving DecidableEq, Repr

/-- Error::source constructor: a kind together with a wrapped cause. -/
def Error.ofSource (kind : ErrorKind) (err : String) : Error :=
  { kind := kind, source := some err }

/-- Error::custom constructor: a kind together with an ad-hoc message cause. -/
def Error.custom (kind : ErrorKind) (message : String) : Error :=
  { kind := kind, source := some message }

/-- Error::from_kind constructor: a bare kind, no cause. -/
def Error.from_kind (kind : ErrorKind) : Error :=
  { kind := kind, source := none }

/-- Minimal JSON model, enough to express the response bodies the
gateway emits. -/
inductive Json where
  | str (s : String)
  | obj (fields : List (String × Json))
deriving Repr

/-- An HTTP response is modelled as a status code (as a Nat) paired with
a JSON body. -/
def HttpResponse : Type := Nat × Json

/-- The status/message pair chosen by the match in
impl IntoResponse for Error, verbatim from the source. -/
def Error.statusAndMessage (e : Error) : Nat × String :=
  match e.kind with
  | ErrorKind.Internal => (500, "internal server error")
  | ErrorKind.KeyMissing => (401, "request is missing a key")
  | ErrorKind.KeyMalformed => (400, "request has an invalid key")
  | ErrorKind.BadHost => (400, "the \x27Host\x27 header is invalid")
  | ErrorKind.UserNotFound => (404, "user not found")
  | ErrorKind.UserAlreadyExists => (400, "user already exists")
  | ErrorKind.ProjectNotFound => (404, "project not found")
  | ErrorKind.ProjectNotReady => (503, "project not ready")
  | ErrorKind.ProjectUnavailable => (502, "project returned invalid response")
  | ErrorKind.InvalidProjectName => (400, "invalid project name")
  | ErrorKind.InvalidOperation => (400, "the requested operation is invalid")
  | ErrorKind.ProjectAlreadyExists =>
      (400, "a project with the same name already exists")
  | ErrorKind.Unauthorized => (401, "unauthorized")
  | ErrorKind.Forbidden => (403, "forbidden")
  | ErrorKind.NotReady => (500, "not ready yet")

/-- Error::into_response: status plus a JSON object with the single
field error holding the kind-determined message. -/
def Error.into_response (e : Error) : HttpResponse :=
  let sm := e.statusAndMessage
  (sm.1, Json.obj [("error", Json.str sm.2)])

/-- Validated project name newtype (struct ProjectName(pub String)). -/
structure ProjectName where
  val : String
deriving DecidableEq, Repr

/-- One character of the class [a-zA-Z0-9_-] used by the ProjectName
validation regex. -/
def isProjectNameChar (c : Char) : Bool :=
  ('a' ≤ c && c ≤ 'z') || ('A' ≤ c && c ≤ 'Z') ||
    ('0' ≤ c && c ≤ '9') || c == '-' || c == '_'

/-- Semantics of the anchored regex used by ProjectName::from_str:
the whole string is 3 to 64 characters, every one in the class
[a-zA-Z0-9_-]. -/
def projectNameRegexMatch (s : String) : Bool :=
  decide (3 ≤ s.length) && decide (s.length ≤ 64) &&
    s.data.all isProjectNameChar

/-- ProjectName::from_str: accept exactly the strings matched by the
regex, otherwise fail with ErrorKind::InvalidProjectName. -/
def ProjectName.from_str (s : String) : Except Error ProjectName :=
  if projectNameRegexMatch s then
    Except.ok { val := s }
  else
    Except.error (Error.from_kind ErrorKind.InvalidProjectName)

/-- Display for ProjectName delegates to the inner string. -/
def ProjectName.display (p : ProjectName) : String := p.val

/-- Validated account name newtype (struct AccountName(pub String)). -/
structure AccountName where
  val : String
deriving DecidableEq, Repr

/-- AccountName::from_str: always succeeds, wrapping the input verbatim. -/
def AccountName.from_str (s : String) : Except Error AccountName :=
  Except.ok { val := s }

/-- Display for AccountName delegates to the inner string. -/
def AccountName.display (a : AccountName) : String := a.val

/-- Modelled from the spec: the validation pattern the spec ascribes to
AccountName (current validation accepts any non-empty string). The
source code itself has no such check; this definition exists only to
state the spec-side claim for comparison. -/
def accountNameSpecPattern (s : String) : Bool :=
  !s.isEmpty

/-- Outcome of running a Deserialize impl once the inner string has been
obtained: a value, a deserializer error, or a reached panic (todo!). -/
inductive DeserializeOutcome (α : Type) where
  | ok (a : α)
  | derror (msg : String)
  | panic
deriving DecidableEq, Repr

/-- Deserialize for ProjectName: parse the string; on parse failure the
map_err closure evaluates the unimplemented placeholder, which panics. -/
def ProjectName.deserialize (s : String) : DeserializeOutcome ProjectName :=
  match ProjectName.from_str s with
  | Except.ok p => DeserializeOutcome.ok p
  | Except.error _ => DeserializeOutcome.panic

/-- Deserialize for AccountName: parse the string; on parse failure the
map_err closure evaluates the unimplemented placeholder, which panics. -/
def AccountName.deserialize (s : String) : DeserializeOutcome AccountName :=
  match AccountName.from_str s with
  | Except.ok a => DeserializeOutcome.ok a
  | Except.error _ => DeserializeOutcome.panic

/-- An EndState instance: a State with Next = Self and Error = Infallible
(Infallible is the empty type), plus the is_done and into_result
classifiers. Rust Result is rendered as Except with the error type
first. -/
structure EndStateModel (S Ctx EV : Type) where
  next : S → Ctx → Except Empty S
  is_done : S → Bool
  into_result : S → Except EV S

/-- Result::unwrap, with none standing for the panic on Err. -/
def resultUnwrap {ε α : Type} : Except ε α → Option α
  | Except.ok a => some a
  | Except.error _ => none

/-- Total extraction from an infallible Result: the Err branch holds an
inhabitant of the empty type and is unreachable. -/
def unwrapInfallible {α : Type} : Except Empty α → α
  | Except.ok a => a
  | Except.error e => e.elim

/-- What one closure invocation of the try_unfold inside into_stream
produces: yield Ok(item) and continue from seed, or yield Err and end
the stream. (The closure never returns Ok(None), so the stream never
ends without a final yielded item.) -/
inductive StepResult (S EV : Type) where
  | yieldContinue (item : S) (seed : S)
  | yieldStop (e : EV)

/-- One iteration of the into_stream driver as written: next, unwrap
(none = panic), into_result; Ok(state) yields a clone of state and
seeds the following step with state; Err(e) yields the error and stops. -/
def intoStreamStep {S Ctx EV : Type} (m : EndStateModel S Ctx EV)
    (ctx : Ctx) (state : S) : Option (StepResult S EV) :=
  (resultUnwrap (m.next state ctx)).map (fun s =>
    match m.into_result s with
    | Except.ok st => StepResult.yieldContinue st st
    | Except.error e => StepResult.yieldStop e)

/-- The same iteration with the unwrap discharged by infallibility. -/
def intoStreamStepRun {S Ctx EV : Type} (m : EndStateModel S Ctx EV)
    (ctx : Ctx) (state : S) : StepResult S EV :=
  match m.into_result (unwrapInfallible (m.next state ctx)) with
  | Except.ok st => StepResult.yieldContinue st st
  | Except.error e => StepResult.yieldStop e

/-- The n-th item of the stream produced by into_stream from a seed
state, or none when the stream has already terminated. -/
def streamNth {S Ctx EV : Type} (m : EndStateModel S Ctx EV)
    (ctx : Ctx) : S → Nat → Option (Except EV S)
  | s, 0 =>
    match intoStreamStepRun m ctx s with
    | StepResult.yieldContinue item _ => some (Except.ok item)
    | StepResult.yieldStop e => some (Except.error e)
  | s, n + 1 =>
    match intoStreamStepRun m ctx s with
    | StepResult.yieldContinue _ seed => streamNth m ctx seed n
    | StepResult.yieldStop _ => none

/-- Observable events of the driver loop, used to count invocations. -/
inductive DriverEvent (S EV : Type) where
  | nextCall (input output : S)
  | intoResultCall (input : S) (output : Except EV S)
  | yieldItem (item : Except EV S)

/-- The event trace of up to n iterations of the into_stream loop:
each iteration records one next call, one into_result call and one
yielded item; an Err classification ends the trace. -/
def driverTrace {S Ctx EV : Type} (m : EndStateModel S Ctx EV)
    (ctx : Ctx) : Nat → S → List (DriverEvent S EV)
  | 0, _ => []
  | n + 1, s =>
    match m.into_result (unwrapInfallible (m.next s ctx)) with
    | Except.ok st =>
        DriverEvent.nextCall s (unwrapInfallible (m.next s ctx)) ::
          DriverEvent.intoResultCall (unwrapInfallible (m.next s ctx))
              (Except.ok st) ::
            DriverEvent.yieldItem (Except.ok st) :: driverTrace m ctx n st
    | Except.error e =>
        [DriverEvent.nextCall s (unwrapInfallible (m.next s ctx)),
          DriverEvent.intoResultCall (unwrapInfallible (m.next s ctx))
              (Except.error e),
          DriverEvent.yieldItem (Except.error e)]

/-- Number of next invocations recorded in a trace. -/
def countNextCalls {S EV : Type} : List (DriverEvent S EV) → Nat
  | [] => 0
  | DriverEvent.nextCall _ _ :: rest => countNextCalls rest + 1
  | _ :: rest => countNextCalls rest

/-- Number of into_result invocations recorded in a trace. -/
def countIntoResultCalls {S EV : Type} : List (DriverEvent S EV) → Nat
  | [] => 0
  | DriverEvent.intoResultCall _ _ :: rest => countIntoResultCalls rest + 1
  | _ :: rest => countIntoResultCalls rest

/-- Number of yielded items recorded in a trace. -/
def countYields {S EV : Type} : List (DriverEvent S EV) → Nat
  | [] => 0
  | DriverEvent.yieldItem _ :: rest => countYields rest + 1
  | _ :: rest => countYields rest

/-- Result::or_else, specialised to a handler that may change the error
type. -/
def resultOrElse {ε ε2 α : Type} (r : Except ε α)
    (f : ε → Except ε2 α) : Except ε2 α :=
  match r with
  | Except.ok a => Except.ok a
  | Except.error e => f e

/-- IntoEndState::into_end_state for Result of S and Err, given the two
From conversions into the EndState type E:
self.map(E::from).or_else(err => Ok(E::from(err))). -/
def into_end_state {S Err E : Type} (fromS : S → E) (fromErr : Err → E)
    (r : Except Err S) : Except Empty E :=
  resultOrElse (r.map fromS) (fun err => Except.ok (fromErr err))

/-- A small concrete EndState instance used to instantiate the generic
stream theorems on closed inputs: counts up from the seed, reports done
from 2 on, and classifies 4 as the declared terminal failure. -/
def demoModel : EndStateModel Nat Unit Bool where
  next := fun s _ => Except.ok (s + 1)
  is_done := fun s => decide (2 ≤ s)
  into_result := fun s => if s = 4 then Except.error true else Except.ok s

/-- Unfolding equation for streamNth at index zero. -/
theorem streamNth_zero {S Ctx EV : Type} (m : EndStateModel S Ctx EV)
    (ctx : Ctx) (s : S) :
    streamNth m ctx s 0 =
      (match intoStreamStepRun m ctx s with
       | StepResult.yieldContinue item _ => some (Except.ok item)
       | StepResult.yieldStop e => some (Except.error e)) := rfl

/-- Unfolding equation for streamNth at a successor index. -/
theorem streamNth_succ {S Ctx EV : Type} (m : EndStateModel S Ctx EV)
    (ctx : Ctx) (s : S) (n : Nat) :
    streamNth m ctx s (n + 1) =
      (match intoStreamStepRun m ctx s with
       | StepResult.yieldContinue _ seed => streamNth m ctx seed n
       | StepResult.yieldStop _ => none) := rfl

/-- Every run of the driver yields a first item: the step either
continues with an Ok item or stops with a final Err item. -/
theorem streamNth_zero_isSome {S Ctx EV : Type} (m : EndStateModel S Ctx EV)
    (ctx : Ctx) (s : S) : (streamNth m ctx s 0).isSome = true := by
  rw [streamNth_zero]
  cases intoStreamStepRun m ctx s <;> rfl

/-- After an Ok item at index n, the stream yields an item at index
n + 1 as well. -/
theorem streamNth_ok_isSome_succ {S Ctx EV : Type} (m : EndStateModel S Ctx EV)
    (ctx : Ctx) :
    ∀ (n : Nat) (s : S) (st : S),
      streamNth m ctx s n = some (Except.ok st) →
      (streamNth m ctx s (n + 1)).isSome = true := by
  intro n
  induction n with
  | zero =>
    intro s st h
    rw [streamNth_succ]
    cases hstep : intoStreamStepRun m ctx s with
    | yieldContinue item seed => exact streamNth_zero_isSome m ctx seed
    | yieldStop e =>
      rw [streamNth_zero, hstep] at h
      simp at h
  | succ n ih =>
    intro s st h
    rw [streamNth_succ] at h ⊢
    cases hstep : intoStreamStepRun m ctx s with
    | yieldContinue item seed =>
      rw [hstep] at h
      exact ih seed st h
    | yieldStop e =>
      rw [hstep] at h
      simp at h

/-- After an Err item at index n, the stream has terminated: there is
no item at index n + 1. -/
theorem streamNth_error_succ_none {S Ctx EV : Type}
    (m : EndStateModel S Ctx EV) (ctx : Ctx) :
    ∀ (n : Nat) (s : S) (e : EV),
      streamNth m ctx s n = some (Except.error e) →
      streamNth m ctx s (n + 1) = none := by
  intro n
  induction n with
  | zero =>
    intro s e h
    rw [streamNth_succ]
    cases hstep : intoStreamStepRun m ctx s with
    | yieldContinue item seed =>
      rw [streamNth_zero, hstep] at h
      simp at h
    | yieldStop e2 => rfl
  | succ n ih =>
    intro s e h
    rw [streamNth_succ] at h ⊢
    cases hstep : intoStreamStepRun m ctx s with
    | yieldContinue item seed =>
      rw [hstep] at h
      exact ih seed e h
    | yieldStop e2 => rfl

/-- In every driver trace the number of next invocations and of
into_result invocations both equal the number of yielded items. -/
theorem driverTrace_counts {S Ctx EV : Type} (m : EndStateModel S Ctx EV)
    (ctx : Ctx) :
    ∀ (n : Nat) (s : S),
      countNextCalls (driverTrace m ctx n s) =
          countYields (driverTrace m ctx n s) ∧
        countIntoResultCalls (driverTrace m ctx n s) =
          countYields (driverTrace m ctx n s) := by
  intro n
  induction n with
  | zero => intro s; exact ⟨rfl, rfl⟩
  | succ n ih =>
    intro s
    simp only [driverTrace]
    cases hr : m.into_result (unwrapInfallible (m.next s ctx)) with
    | ok st =>
      simp only [countNextCalls, countIntoResultCalls, countYields]
      exact ⟨by rw [(ih st).1], by rw [(ih st).2]⟩
    | error e =>
      exact ⟨rfl, rfl⟩

/-- The response produced for an Error coincides with the response for
the bare kind: the wrapped cause plays no part. -/
theorem into_response_kind_only (e : Error) :
    e.into_response = (Error.from_kind e.kind).into_response := rfl

/-- Claim C1: if the item at index n of an into_stream sequence is Ok,
an item at index n + 1 is produced, even when is_done holds of the Ok
state; the stream terminates, i.e. has no item at index n + 1, exactly
when the item at index n is an Err classification — never on success. -/
theorem into_stream_no_end_on_success {S Ctx EV : Type}
    (m : EndStateModel S Ctx EV) (ctx : Ctx) (s0 : S) (n : Nat)
    (x : Except EV S) (h : streamNth m ctx s0 n = some x) :
    (∀ st, x = Except.ok st → m.is_done st = true →
        (streamNth m ctx s0 (n + 1)).isSome = true) ∧
    (∀ st, x = Except.ok st →
        (streamNth m ctx s0 (n + 1)).isSome = true) ∧
    (streamNth m ctx s0 (n + 1) = none ↔ ∃ e, x = Except.error e) := by
  refine ⟨?_, ?_, ?_⟩
  · intro st hst _
    subst hst
    exact streamNth_ok_isSome_succ m ctx n s0 st h
  · intro st hst
    subst hst
    exact streamNth_ok_isSome_succ m ctx n s0 st h
  · constructor
    · intro hnone
      cases x with
      | ok st =>
        have hs := streamNth_ok_isSome_succ m ctx n s0 st h
        rw [hnone] at hs
        simp at hs
      | error e => exact ⟨e, rfl⟩
    · rintro ⟨e, he⟩
      subst he
      exact streamNth_error_succ_none m ctx n s0 e h

/-- Witness for C1 on the concrete demoModel: item 2 is Ok 3 with
is_done 3 true, yet item 3 exists; item 3 is the Err item and the
stream then terminates. -/
theorem into_stream_no_end_on_success_witness :
    demoModel.is_done 3 = true ∧
    (streamNth demoModel () 0 3).isSome = true ∧
    (streamNth demoModel () 0 4 = none ↔
      ∃ e, (Except.error true : Except Bool Nat) = Except.error e) :=
  ⟨rfl,
    (into_stream_no_end_on_success demoModel () 0 2 (Except.ok 3) rfl).1
      3 rfl rfl,
    (into_stream_no_end_on_success demoModel () 0 3
      (Except.error true) rfl).2.2⟩

/-- Claim C2: one iteration of the driver is one next invocation
followed by one into_result call: an Ok(state) classification yields
the state as the item and seeds the next step with the same state; an
Err classification yields the error as the final item and ends the
trace; and in every trace the yielded items are in bijection with the
next (and into_result) invocations. -/
theorem into_stream_one_transition_per_yield {S Ctx EV : Type}
    (m : EndStateModel S Ctx EV) (ctx : Ctx) (s : S) :
    (∀ st, m.into_result (unwrapInfallible (m.next s ctx)) = Except.ok st →
        intoStreamStepRun m ctx s = StepResult.yieldContinue st st) ∧
    (∀ e, m.into_result (unwrapInfallible (m.next s ctx)) = Except.error e →
        intoStreamStepRun m ctx s = StepResult.yieldStop e ∧
        ∀ n, driverTrace m ctx (n + 1) s =
          [DriverEvent.nextCall s (unwrapInfallible (m.next s ctx)),
            DriverEvent.intoResultCall (unwrapInfallible (m.next s ctx))
                (Except.error e),
            DriverEvent.yieldItem (Except.error e)]) ∧
    (∀ n, countNextCalls (driverTrace m ctx n s) =
        countYields (driverTrace m ctx n s) ∧
      countIntoResultCalls (driverTrace m ctx n s) =
        countYields (driverTrace m ctx n s)) := by
  refine ⟨?_, ?_, fun n => driverTrace_counts m ctx n s⟩
  · intro st hr
    unfold intoStreamStepRun
    rw [hr]
  · intro e hr
    constructor
    · unfold intoStreamStepRun
      rw [hr]
    · intro n
      simp only [driverTrace]
      rw [hr]

/-- Witness for C2 on the concrete demoModel: from seed 0 the step
yields 1 and seeds with 1; from 3 the step yields the terminal error;
a 6-iteration trace has as many next calls as yields. -/
theorem into_stream_one_transition_per_yield_witness :
    intoStreamStepRun demoModel () 0 = StepResult.yieldContinue 1 1 ∧
    intoStreamStepRun demoModel () 3 = StepResult.yieldStop true ∧
    countNextCalls (driverTrace demoModel () 6 0) =
      countYields (driverTrace demoModel () 6 0) :=
  ⟨(into_stream_one_transition_per_yield demoModel () 0).1 1 rfl,
    ((into_stream_one_transition_per_yield demoModel () 3).2.1 true rfl).1,
    ((into_stream_one_transition_per_yield demoModel () 0).2.2 6).1⟩

/-- Claim C3: Error::into_response maps each of the 15 ErrorKind values
to exactly the status/message pair of the specification table, totally
and independently of the wrapped cause. -/
theorem error_into_response_table :
    (∀ e1 e2 : Error, e1.kind = e2.kind →
        e1.into_response = e2.into_response) ∧
    (Error.from_kind ErrorKind.Internal).into_response =
      (500, Json.obj [("error", Json.str "internal server error")]) ∧
    (Error.from_kind ErrorKind.NotReady).into_response =
      (500, Json.obj [("error", Json.str "not ready yet")]) ∧
    (Error.from_kind ErrorKind.KeyMissing).into_response =
      (401, Json.obj [("error", Json.str "request is missing a key")]) ∧
    (Error.from_kind ErrorKind.Unauthorized).into_response =
      (401, Json.obj [("error", Json.str "unauthorized")]) ∧
    (Error.from_kind ErrorKind.Forbidden).into_response =
      (403, Json.obj [("error", Json.str "forbidden")]) ∧
    (Error.from_kind ErrorKind.UserNotFound).into_response =
      (404, Json.obj [("error", Json.str "user not found")]) ∧
    (Error.from_kind ErrorKind.ProjectNotFound).into_response =
      (404, Json.obj [("error", Json.str "project not found")]) ∧
    (Error.from_kind ErrorKind.ProjectNotReady).into_response =
      (503, Json.obj [("error", Json.str "project not ready")]) ∧
    (Error.from_kind ErrorKind.ProjectUnavailable).into_response =
      (502, Json.obj
        [("error", Json.str "project returned invalid response")]) ∧
    (Error.from_kind ErrorKind.KeyMalformed).into_response =
      (400, Json.obj [("error", Json.str "request has an invalid key")]) ∧
    (Error.from_kind ErrorKind.BadHost).into_response =
      (400, Json.obj
        [("error", Json.str "the \x27Host\x27 header is invalid")]) ∧
    (Error.from_kind ErrorKind.InvalidProjectName).into_response =
      (400, Json.obj [("error", Json.str "invalid project name")]) ∧
    (Error.from_kind ErrorKind.InvalidOperation).into_response =
      (400, Json.obj
        [("error", Json.str "the requested operation is invalid")]) ∧
    (Error.from_kind ErrorKind.UserAlreadyExists).into_response =
      (400, Json.obj [("error", Json.str "user already exists")]) ∧
    (Error.from_kind ErrorKind.ProjectAlreadyExists).into_response =
      (400, Json.obj
        [("error",
          Json.str "a project with the same name already exists")]) := by
  refine ⟨?_, rfl, rfl, rfl, rfl, rfl, rfl, rfl, rfl, rfl, rfl, rfl, rfl,
    rfl, rfl, rfl⟩
  intro e1 e2 h
  rw [into_response_kind_only e1, into_response_kind_only e2, h]

/-- Witness for C3: a cause-carrying Internal error and a bare Internal
error produce the same response. -/
theorem error_into_response_table_witness :
    (Error.ofSource ErrorKind.Internal "db connection refused").into_response =
      (Error.from_kind ErrorKind.Internal).into_response :=
  error_into_response_table.1
    (Error.ofSource ErrorKind.Internal "db connection refused")
    (Error.from_kind ErrorKind.Internal) rfl

/-- Claim C4: ProjectName::from_str accepts exactly the strings matched
by the anchored regex of 3 to 64 characters from the class
[a-zA-Z0-9_-]; accepted strings round-trip through Display, and every
rejected string produces an Error of kind InvalidProjectName. -/
theorem projectName_from_str_spec (s : String) :
    (projectNameRegexMatch s = true →
        ProjectName.from_str s = Except.ok { val := s } ∧
        ∀ p, ProjectName.from_str s = Except.ok p → p.display = s) ∧
    (projectNameRegexMatch s = false →
        ∃ e, ProjectName.from_str s = Except.error e ∧
          e.kind = ErrorKind.InvalidProjectName) := by
  constructor
  · intro hm
    constructor
    · rw [ProjectName.from_str, if_pos hm]
    · intro p hp
      rw [ProjectName.from_str, if_pos hm] at hp
      cases hp
      rfl
  · intro hm
    refine ⟨Error.from_kind ErrorKind.InvalidProjectName, ?_, rfl⟩
    rw [ProjectName.from_str, if_neg (by rw [hm]; exact Bool.false_ne_true)]

/-- Witness for C4: a valid name parses and a slash-containing name and
the empty string are rejected with InvalidProjectName. -/
theorem projectName_from_str_spec_witness :
    projectNameRegexMatch "my-project_1" = true ∧
    ProjectName.from_str "my-project_1" =
      Except.ok { val := "my-project_1" } ∧
    projectNameRegexMatch "a/b" = false ∧
    (∃ e, ProjectName.from_str "a/b" = Except.error e ∧
      e.kind = ErrorKind.InvalidProjectName) ∧
    projectNameRegexMatch "" = false ∧
    (∃ e, ProjectName.from_str "" = Except.error e ∧
      e.kind = ErrorKind.InvalidProjectName) :=
  ⟨by decide, ((projectName_from_str_spec "my-project_1").1 (by decide)).1,
    by decide, (projectName_from_str_spec "a/b").2 (by decide),
    by decide, (projectName_from_str_spec "").2 (by decide)⟩

/-- Claim C5: for every Error the body is a JSON object with the single
string field error holding the kind-determined message, the whole
response equals the response of the bare kind, and two errors of one
kind with any two causes produce identical responses — the cause is
never serialized. -/
theorem error_into_response_no_cause_leak (e : Error) :
    e.into_response.2 = Json.obj [("error", Json.str e.statusAndMessage.2)] ∧
    e.into_response = (Error.from_kind e.kind).into_response ∧
    ∀ c1 c2 : Option String,
      Error.into_response { kind := e.kind, source := c1 } =
        Error.into_response { kind := e.kind, source := c2 } :=
  ⟨rfl, rfl, fun _ _ => rfl⟩

/-- Claim C6: into_end_state is total — it returns Ok on every input —
and branch-preserving: an Ok(s) input converts through the success
conversion and an Err(e) input through the error conversion, so the
error is never dropped. -/
theorem into_end_state_total_branch_preserving {S Err E : Type}
    (fromS : S → E) (fromErr : Err → E) (r : Except Err S) :
    (∃ e, into_end_state fromS fromErr r = Except.ok e) ∧
    (∀ s, r = Except.ok s →
        into_end_state fromS fromErr r = Except.ok (fromS s)) ∧
    (∀ err, r = Except.error err →
        into_end_state fromS fromErr r = Except.ok (fromErr err)) := by
  refine ⟨?_, ?_, ?_⟩
  · cases r with
    | ok s => exact ⟨fromS s, rfl⟩
    | error err => exact ⟨fromErr err, rfl⟩
  · intro s hs
    subst hs
    rfl
  · intro err he
    subst he
    rfl

/-- Witness for C6: both branches of a concrete Result convert to Ok of
the matching injection. -/
theorem into_end_state_total_branch_preserving_witness :
    into_end_state Sum.inl Sum.inr (Except.ok 3 : Except String Nat) =
      Except.ok (Sum.inl 3) ∧
    into_end_state Sum.inl Sum.inr
        (Except.error "boom" : Except String Nat) =
      Except.ok (Sum.inr "boom") :=
  ⟨(into_end_state_total_branch_preserving Sum.inl Sum.inr
      (Except.ok 3)).2.1 3 rfl,
    (into_end_state_total_branch_preserving Sum.inl Sum.inr
      (Except.error "boom")).2.2 "boom" rfl⟩

/-- Counterexample to C7 as stated: the empty string does not match the
validation pattern the spec ascribes to AccountName (non-empty), yet
AccountName::from_str succeeds on it instead of failing with
InvalidProjectName. -/
theorem accountName_empty_accepted :
    accountNameSpecPattern "" = false ∧
    AccountName.from_str "" = Except.ok { val := "" } := ⟨rfl, rfl⟩

/-- Claim C7 as amended: AccountName::from_str succeeds on every
non-empty input string, and it also succeeds on the empty string — the
code has no validation pattern and no failure path. -/
theorem accountName_from_str_nonempty_ok (s : String) :
    (s ≠ "" → AccountName.from_str s = Except.ok { val := s }) ∧
    AccountName.from_str "" = Except.ok { val := "" } :=
  ⟨fun _ => rfl, rfl⟩

/-- Witness for the amended C7 at a concrete non-empty account name. -/
theorem accountName_from_str_nonempty_ok_witness :
    ("alice" : String) ≠ "" ∧
    AccountName.from_str "alice" = Except.ok { val := "alice" } :=
  ⟨by decide, (accountName_from_str_nonempty_ok "alice").1 (by decide)⟩

/-- Claim C8: the unwrap inside into_stream never panics: next returns
an infallible Result, so unwrap always yields the Ok value and the
driver step always produces a step result. -/
theorem into_stream_unwrap_never_panics {S Ctx EV : Type}
    (m : EndStateModel S Ctx EV) (ctx : Ctx) (s : S) :
    resultUnwrap (m.next s ctx) = some (unwrapInfallible (m.next s ctx)) ∧
    intoStreamStep m ctx s = some (intoStreamStepRun m ctx s) := by
  cases hn : m.next s ctx with
  | ok s1 =>
    constructor
    · rw [resultUnwrap, unwrapInfallible]
    · unfold intoStreamStep intoStreamStepRun
      rw [hn]
      rfl
  | error e => exact e.elim

/-- Counterexample to C9 as stated: no input makes both Deserialize
impls reach the placeholder — AccountName::from_str never fails, so
AccountName::deserialize never reaches its todo branch. -/
theorem deserialize_panic_not_shared_with_accountName :
    ¬ ∃ s, projectNameRegexMatch s = false ∧
      ProjectName.deserialize s = DeserializeOutcome.panic ∧
      AccountName.deserialize s = DeserializeOutcome.panic := by
  rintro ⟨s, _, _, hA⟩
  simp [AccountName.deserialize, AccountName.from_str] at hA

/-- Claim C9 as amended: for an input that does not match the
ProjectName pattern, ProjectName::deserialize reaches the unimplemented
placeholder (a panic, not a deserialization error); the identical
placeholder in AccountName::deserialize is unreachable, since
AccountName::from_str succeeds on every string. -/
theorem projectName_deserialize_panic_reachable :
    projectNameRegexMatch "/" = false ∧
    ProjectName.deserialize "/" = DeserializeOutcome.panic ∧
    ∀ s, AccountName.deserialize s = DeserializeOutcome.ok { val := s } :=
  ⟨by decide, rfl, fun s => rfl⟩

/-- Claim C10: AccountName::from_str is total: every input string,
the empty string included, parses to Ok of exactly that string, and no
input produces an error. -/
theorem accountName_from_str_total (s : String) :
    AccountName.from_str s = Except.ok { val := s } ∧
    ¬ ∃ e, AccountName.from_str s = Except.error e := by
  refine ⟨rfl, ?_⟩
  rintro ⟨e, h⟩
  simp [AccountName.from_str] at h
